import Mathlib

/-!
Verification development for the worker-decoupled OpenCL/FPGA frame pipeline
(relay_debug_nv12_worker_opencl_fpga, file m2.cpp of the repository).

The embedding below follows the source function by function:

* structure Counters mirrors struct Counters (m2.cpp:167-189); every atomic
  fetch_add site of the source becomes one update helper.
* initialize_shared_opencl_context mirrors m2.cpp:234-268, with the external
  toolchain outcomes (no devices found / binary load throws / success)
  abstracted into an InitOutcome parameter.
* allocate_worker_opencl_buffers mirrors m2.cpp:303-320; the three cl::Buffer
  device allocations are abstracted into a Bool success parameter, and the
  WorkerCtx carries an allocation-event count so that (re)allocation is
  observable.
* worker_iteration mirrors one body of the worker loop of worker_thread_fn
  (m2.cpp:430-549): map input, check cached video info, geometry validation,
  device buffer allocation, device round-trip (the catch branch of
  m2.cpp:495-498 abstracted into a Bool), output buffer construction
  (memcpy of the luma plane, memset 128 of the chroma plane,
  GST_CLOCK_TIME_NONE timestamps), and downstream push.
* status_classify mirrors the health classification of status_tick
  (m2.cpp:596-607); the test opencv_output_fps > 0 of the source is the test
  delta_processed > 0 since opencv_output_fps = (processed - prev)/2.0 on a
  non-negative delta.
* shutdown_sequence mirrors the shutdown tail of main (m2.cpp:813-830) as the
  list of effectful steps in program order.
* pipeStep is an interleaving small-step semantics of the counter-relevant
  atomic events of the program: the five pad probes, the two halves of the
  enqueue in new_sample_cb (queue push at m2.cpp:396, counter increments at
  m2.cpp:397-398), and a worker dequeue-plus-iteration.
-/

/-- Instrumentation counters, one field per atomic counter of struct Counters
(m2.cpp:167-189). All counters are only ever incremented by fetch_add. -/
structure Counters where
  cam_out_frames : Nat
  cam_out_bytes : Nat
  qcam_out_frames : Nat
  qcam_out_bytes : Nat
  appsink_in_frames : Nat
  appsink_in_bytes : Nat
  enqueued_frames : Nat
  enqueued_bytes : Nat
  processed_frames : Nat
  processed_bytes : Nat
  after_src_frames : Nat
  after_src_bytes : Nat
  encoder_in_frames : Nat
  encoder_in_bytes : Nat
  push_failures : Nat
  processing_errors : Nat
  total_processing_time_us : Nat
  opencl_errors : Nat
deriving DecidableEq, Repr

/-- The all-zero initial counter state (every field is value-initialized). -/
def counters0 : Counters :=
  ⟨0, 0, 0, 0, 0, 0, 0, 0, 0, 0, 0, 0, 0, 0, 0, 0, 0, 0⟩

/-- probe_cam_out (m2.cpp:328-329). -/
def Counters.inc_cam_out (c : Counters) (b : Nat) : Counters :=
  { c with cam_out_frames := c.cam_out_frames + 1,
           cam_out_bytes := c.cam_out_bytes + b }

/-- probe_qcam_out (m2.cpp:338-339). -/
def Counters.inc_qcam_out (c : Counters) (b : Nat) : Counters :=
  { c with qcam_out_frames := c.qcam_out_frames + 1,
           qcam_out_bytes := c.qcam_out_bytes + b }

/-- probe_apps_sink (m2.cpp:348-349). -/
def Counters.inc_appsink_in (c : Counters) (b : Nat) : Counters :=
  { c with appsink_in_frames := c.appsink_in_frames + 1,
           appsink_in_bytes := c.appsink_in_bytes + b }

/-- Enqueue counter increments of new_sample_cb (m2.cpp:397-398). -/
def Counters.inc_enqueued (c : Counters) (b : Nat) : Counters :=
  { c with enqueued_frames := c.enqueued_frames + 1,
           enqueued_bytes := c.enqueued_bytes + b }

/-- Processed counter increments of worker_thread_fn (m2.cpp:536-537). -/
def Counters.inc_processed (c : Counters) (b : Nat) : Counters :=
  { c with processed_frames := c.processed_frames + 1,
           processed_bytes := c.processed_bytes + b }

/-- probe_after_appsrc_queue (m2.cpp:358-359). -/
def Counters.inc_after_src (c : Counters) (b : Nat) : Counters :=
  { c with after_src_frames := c.after_src_frames + 1,
           after_src_bytes := c.after_src_bytes + b }

/-- probe_encoder_sink (m2.cpp:368-369). -/
def Counters.inc_encoder_in (c : Counters) (b : Nat) : Counters :=
  { c with encoder_in_frames := c.encoder_in_frames + 1,
           encoder_in_bytes := c.encoder_in_bytes + b }

/-- push_failures increment (m2.cpp:541). -/
def Counters.inc_push_failures (c : Counters) : Counters :=
  { c with push_failures := c.push_failures + 1 }

/-- processing_errors increment (m2.cpp:437, 455, 508, 524, 547). -/
def Counters.inc_processing_errors (c : Counters) : Counters :=
  { c with processing_errors := c.processing_errors + 1 }

/-- opencl_errors increment (m2.cpp:470). -/
def Counters.inc_opencl_errors (c : Counters) : Counters :=
  { c with opencl_errors := c.opencl_errors + 1 }

/-- total_processing_time_us accumulation (m2.cpp:501). -/
def Counters.add_proc_time (c : Counters) (us : Nat) : Counters :=
  { c with total_processing_time_us := c.total_processing_time_us + us }

/-- Componentwise order on counter states: every counter of the first state is
at most the corresponding counter of the second. -/
def Counters.le (a b : Counters) : Prop :=
  a.cam_out_frames ≤ b.cam_out_frames ∧
  a.cam_out_bytes ≤ b.cam_out_bytes ∧
  a.qcam_out_frames ≤ b.qcam_out_frames ∧
  a.qcam_out_bytes ≤ b.qcam_out_bytes ∧
  a.appsink_in_frames ≤ b.appsink_in_frames ∧
  a.appsink_in_bytes ≤ b.appsink_in_bytes ∧
  a.enqueued_frames ≤ b.enqueued_frames ∧
  a.enqueued_bytes ≤ b.enqueued_bytes ∧
  a.processed_frames ≤ b.processed_frames ∧
  a.processed_bytes ≤ b.processed_bytes ∧
  a.after_src_frames ≤ b.after_src_frames ∧
  a.after_src_bytes ≤ b.after_src_bytes ∧
  a.encoder_in_frames ≤ b.encoder_in_frames ∧
  a.encoder_in_bytes ≤ b.encoder_in_bytes ∧
  a.push_failures ≤ b.push_failures ∧
  a.processing_errors ≤ b.processing_errors ∧
  a.total_processing_time_us ≤ b.total_processing_time_us ∧
  a.opencl_errors ≤ b.opencl_errors

instance (a b : Counters) : Decidable (Counters.le a b) := by
  unfold Counters.le; infer_instance

/- ---------- Shared accelerator session (m2.cpp:191-197, 234-268) ---------- -/

/-- Outcome of the external accelerator toolchain calls inside
initialize_shared_opencl_context: either xcl get_xil_devices returns no
device (m2.cpp:238-241), or the binary load throws after the device was
already selected and the context created (caught at m2.cpp:261-267), or
everything succeeds. -/
inductive InitOutcome where
  | noDevices : InitOutcome
  | loadThrows : InitOutcome
  | ok : InitOutcome
deriving DecidableEq, Repr

/-- Shared session state of struct SharedOpenCLContext, instrumented with the
number of device-selection events (assignments to the device/context fields,
m2.cpp:243-244) and program-load events (binary import plus cl::Program
construction, m2.cpp:248-252) performed so far, so that re-selection and
re-loading are observable. -/
structure SharedCtx where
  initialized : Bool
  device_selections : Nat
  program_loads : Nat
deriving DecidableEq, Repr

/-- Fresh shared session state (SharedOpenCLContext value-initialized). -/
def initSharedCtx : SharedCtx := ⟨false, 0, 0⟩

/-- initialize_shared_opencl_context (m2.cpp:234-268). There is no guard on
the initialized flag: the function unconditionally selects devices.front(),
creates the context, loads the binary and sets the flag. Returns the C bool
result together with the new session state. -/
def initialize_shared_opencl_context :
    InitOutcome → SharedCtx → Bool × SharedCtx
  | InitOutcome.noDevices, s => (false, s)
  | InitOutcome.loadThrows, s =>
      (false, { s with device_selections := s.device_selections + 1 })
  | InitOutcome.ok, s =>
      (true, { initialized := true,
               device_selections := s.device_selections + 1,
               program_loads := s.program_loads + 1 })

/- ---------- Per-worker device buffers (m2.cpp:199-209, 303-320) ---------- -/

/-- Worker-owned device buffer state of struct WorkerOpenCLContext: the cached
buffer-size watermark, whether the input buffer handle is non-null
(img_y_in_buffer() != nullptr), and an instrumentation count of allocation
events so that reallocation is observable. -/
structure WorkerCtx where
  buffer_size : Nat
  has_buffer : Bool
  alloc_count : Nat
deriving DecidableEq, Repr

/-- Fresh worker buffer state (buffer_size 0, no buffers yet). -/
def workerCtx0 : WorkerCtx := ⟨0, false, 0⟩

/-- allocate_worker_opencl_buffers (m2.cpp:303-320). Reuses the existing
buffers when the watermark equals y_size and a buffer exists; otherwise
performs the three cl::Buffer allocations (abstracted into alloc_ok: true
when all three succeed, false when the allocation throws, caught at
m2.cpp:316-319) and updates the watermark. -/
def allocate_worker_opencl_buffers (alloc_ok : Bool) (ctx : WorkerCtx)
    (y_size : Nat) : Bool × WorkerCtx :=
  if ctx.buffer_size = y_size ∧ ctx.has_buffer = true then
    (true, ctx)
  else if alloc_ok = true then
    (true, { buffer_size := y_size, has_buffer := true,
             alloc_count := ctx.alloc_count + 1 })
  else
    (false, ctx)

/- ---------- One worker loop iteration (m2.cpp:430-549) ---------- -/

/-- Environment of one worker loop iteration on one dequeued buffer: the
outcomes of the external calls and the frame data. fpgaResult is the luma
plane read back from the device (the kernel itself is an external
collaborator); clThrowsGError abstracts the device round-trip throwing the
exception caught at m2.cpp:495-498. -/
structure FrameEnv where
  mapOk : Bool
  videoInfoValid : Bool
  width : Nat
  height : Nat
  payloadSize : Nat
  allocDeviceOk : Bool
  clThrowsGError : Bool
  fpgaResult : List Nat
  outbufAllocOk : Bool
  outMapOk : Bool
  pushOk : Bool
  procTimeUs : Nat
deriving DecidableEq, Repr

/-- Output-buffer timestamps; the source stamps all three with
GST_CLOCK_TIME_NONE (m2.cpp:532-534), modelled as none. -/
structure OutTimestamps where
  pts : Option Nat
  dts : Option Nat
  duration : Option Nat
deriving DecidableEq, Repr

/-- A fully constructed output frame buffer: payload bytes and timestamps. -/
structure OutBuf where
  payload : List Nat
  ts : OutTimestamps
deriving DecidableEq, Repr

/-- Result of one worker loop iteration: the counter state, the worker buffer
state, whether the input buffer was released (unreferenced) by the end of the
iteration, the output buffer that was fully constructed (none when the
iteration bailed out before or during construction), and whether an output
buffer was accepted downstream by gst_app_src_push_buffer. -/
structure StepResult where
  ctr : Counters
  ctx : WorkerCtx
  inbufReleased : Bool
  outbufBuilt : Option OutBuf
  pushedDownstream : Bool
deriving DecidableEq, Repr

/-- Geometry validation of worker_thread_fn (m2.cpp:452): the payload must
hold at least width*height luma bytes plus width*height/2 chroma bytes. -/
def frame_size_ok (payloadSize width height : Nat) : Bool :=
  !(payloadSize < width * height + width * height / 2)

/-- One body of the worker loop of worker_thread_fn on one dequeued buffer
(m2.cpp:430-549), in source order: map the input buffer for reading (failure:
unref, count processing error, continue — m2.cpp:435-439); skip silently if
the video info is not yet cached (unmap, unref, continue, no counter —
m2.cpp:441-445); geometry validation (reject: unmap, unref, count processing
error — m2.cpp:452-457); device buffer allocation (failure: unmap, unref,
count opencl error — m2.cpp:467-472); device round-trip (on the caught
exception the source prints and continues without unmapping, unreferencing or
counting — m2.cpp:495-498); accumulate processing time (m2.cpp:501); allocate
the output buffer (failure: unmap/unref input, count processing error —
m2.cpp:504-510); map it and build the NV12 payload, copying the transformed
luma plane and filling the chroma plane with 128 (m2.cpp:513-526); release the
input buffer (m2.cpp:528-529); stamp unset timestamps (m2.cpp:532-534); count
the processed frame and push downstream, counting a push failure and dropping
the output buffer when the push is rejected (m2.cpp:536-543). -/
def worker_iteration (env : FrameEnv) (ctr : Counters) (ctx : WorkerCtx) :
    StepResult :=
  if env.mapOk = false then
    ⟨ctr.inc_processing_errors, ctx, true, none, false⟩
  else if env.videoInfoValid = false then
    ⟨ctr, ctx, true, none, false⟩
  else
    let y_size := env.width * env.height
    let uv_size := env.width * env.height / 2
    if frame_size_ok env.payloadSize env.width env.height = false then
      ⟨ctr.inc_processing_errors, ctx, true, none, false⟩
    else
      let ar := allocate_worker_opencl_buffers env.allocDeviceOk ctx y_size
      if ar.1 = false then
        ⟨ctr.inc_opencl_errors, ar.2, true, none, false⟩
      else if env.clThrowsGError = true then
        ⟨ctr, ar.2, false, none, false⟩
      else
        let ctr1 := ctr.add_proc_time env.procTimeUs
        if env.outbufAllocOk = false then
          ⟨ctr1.inc_processing_errors, ar.2, true, none, false⟩
        else if env.outMapOk = false then
          ⟨ctr1.inc_processing_errors, ar.2, true, none, false⟩
        else
          let outPayload := env.fpgaResult ++ List.replicate uv_size 128
          let outBuf : OutBuf := ⟨outPayload, ⟨none, none, none⟩⟩
          let ctr2 := ctr1.inc_processed (y_size + uv_size)
          if env.pushOk = true then
            ⟨ctr2, ar.2, true, some outBuf, true⟩
          else
            ⟨ctr2.inc_push_failures, ar.2, true, some outBuf, false⟩

/- ---------- Health classification (m2.cpp:567-607) ---------- -/

/-- The five health states printed by status_tick (m2.cpp:596-607). -/
inductive ProcStatus where
  | fpgaError : ProcStatus
  | processingError : ProcStatus
  | queueBacklog : ProcStatus
  | active : ProcStatus
  | idle : ProcStatus
deriving DecidableEq, Repr

/-- Health classification of status_tick (m2.cpp:596-607). The source tests
opencv_output_fps > 0 where opencv_output_fps = (processed - prev)/2.0; since
the delta is a non-negative integer, that double comparison holds exactly when
delta_processed > 0. qlen is the g_async_queue_length result (a gint). -/
def status_classify (opencl_errors proc_errors : Nat) (qlen : Int)
    (delta_processed : Nat) : ProcStatus :=
  if 0 < opencl_errors then ProcStatus.fpgaError
  else if 0 < proc_errors then ProcStatus.processingError
  else if 5 < qlen then ProcStatus.queueBacklog
  else if 0 < delta_processed then ProcStatus.active
  else ProcStatus.idle

/-- Status computed by one status_tick sample from a counter state: the tick
loads processing_errors and opencl_errors as cumulative totals (m2.cpp:577-578)
and the processed-frame delta against the previous sample (m2.cpp:584).
push_failures is not loaded by status_tick at all. -/
def status_tick_status (ctr : Counters) (qlen : Int) (prev_processed : Nat) :
    ProcStatus :=
  status_classify ctr.opencl_errors ctr.processing_errors qlen
    (ctr.processed_frames - prev_processed)

/- ---------- Shutdown coordinator (m2.cpp:813-830) ---------- -/

/-- The effectful shutdown steps of main: set the stop flag (m2.cpp:814),
drain the worker queue unreferencing every resident buffer (m2.cpp:816), join
worker thread i (m2.cpp:819-827), destroy the shared accelerator session
(cleanup_shared_opencl_context, m2.cpp:830). -/
inductive ShutdownAction where
  | setStopFlag : ShutdownAction
  | drainQueue : ShutdownAction
  | joinWorker : Nat → ShutdownAction
  | destroySession : ShutdownAction
deriving DecidableEq, Repr

/-- The shutdown tail of main (m2.cpp:813-830) as the list of effectful steps
in program order: stop flag, then the queue drain loop, then the join loop
over workers 0..num_workers-1, then session teardown. -/
def shutdown_sequence (num_workers : Nat) : List ShutdownAction :=
  ShutdownAction.setStopFlag :: ShutdownAction.drainQueue ::
    ((List.range num_workers).map ShutdownAction.joinWorker ++
      [ShutdownAction.destroySession])

/-- The queue drain loop of main (m2.cpp:816): pop and unreference every
buffer still resident in the worker queue, until the queue is empty. -/
def drain_worker_queue {α : Type} : List α → List α
  | [] => []
  | _ :: rest => drain_worker_queue rest

/- ---------- Interleaving semantics of the counter events ---------- -/

/-- Pipeline state for the interleaving semantics: the counters, the number of
buffers resident in the worker queue, and the number of enqueue operations
that are in flight in new_sample_cb — the queue push of m2.cpp:396 has
executed but the counter increments of m2.cpp:397-398 have not yet. -/
structure PipeState where
  ctr : Counters
  queueLen : Nat
  pending : Nat
deriving DecidableEq, Repr

/-- Initial pipeline state: zero counters, empty queue, no enqueue in
flight. -/
def initPipeState : PipeState := ⟨counters0, 0, 0⟩

/-- The atomic counter-relevant events of the program: one buffer passing each
of the five pad probes, the two halves of the enqueue performed by
new_sample_cb (the g_async_queue_push of m2.cpp:396, then the counter
increments of m2.cpp:397-398), and one worker dequeueing a buffer and running
one loop iteration on it. -/
inductive PipeEvent where
  | camOut : Nat → PipeEvent
  | qcamOut : Nat → PipeEvent
  | appsinkIn : Nat → PipeEvent
  | cbPush : PipeEvent
  | cbCount : Nat → PipeEvent
  | afterSrc : Nat → PipeEvent
  | encoderIn : Nat → PipeEvent
  | workerIter : FrameEnv → WorkerCtx → PipeEvent
deriving DecidableEq, Repr

/-- One interleaving step: the effect of one atomic event on the pipeline
state. cbCount is enabled only when a push is in flight; workerIter is
enabled only when the queue is non-empty (g_async_queue_timeout_pop returned
an item, m2.cpp:427-428). -/
def pipeStep (s : PipeState) : PipeEvent → Option PipeState
  | PipeEvent.camOut b => some { s with ctr := s.ctr.inc_cam_out b }
  | PipeEvent.qcamOut b => some { s with ctr := s.ctr.inc_qcam_out b }
  | PipeEvent.appsinkIn b => some { s with ctr := s.ctr.inc_appsink_in b }
  | PipeEvent.cbPush =>
      some { s with queueLen := s.queueLen + 1, pending := s.pending + 1 }
  | PipeEvent.cbCount b =>
      if 0 < s.pending then
        some { s with ctr := s.ctr.inc_enqueued b, pending := s.pending - 1 }
      else none
  | PipeEvent.afterSrc b => some { s with ctr := s.ctr.inc_after_src b }
  | PipeEvent.encoderIn b => some { s with ctr := s.ctr.inc_encoder_in b }
  | PipeEvent.workerIter env ctx =>
      if 0 < s.queueLen then
        some { s with ctr := (worker_iteration env s.ctr ctx).ctr,
                      queueLen := s.queueLen - 1 }
      else none

/-- Run a list of events from a state, failing when an event is not
enabled. -/
def runEvents (s : PipeState) : List PipeEvent → Option PipeState
  | [] => some s
  | e :: rest =>
      match pipeStep s e with
      | some s2 => runEvents s2 rest
      | none => none

/- ---------- Concrete frame environments used by the witnesses ---------- -/

/-- A 4x2 frame (luma 8 bytes, chroma 4 bytes, payload 12 bytes) on which
every external call succeeds and the push is accepted. -/
def envSuccess : FrameEnv :=
  ⟨true, true, 4, 2, 12, true, false, [0, 1, 2, 3, 4, 5, 6, 7],
    true, true, true, 0⟩

/-- Same frame, but the device round-trip throws the exception caught at
m2.cpp:495-498. -/
def envClThrows : FrameEnv := { envSuccess with clThrowsGError := true }

/-- Same frame, but the downstream push is rejected. -/
def envPushFail : FrameEnv := { envSuccess with pushOk := false }

/-- Same frame, but the device buffer allocation fails. -/
def envAllocFail : FrameEnv := { envSuccess with allocDeviceOk := false }

/-- Same frame, dequeued before the video format was cached. -/
def envNoVideoInfo : FrameEnv := { envSuccess with videoInfoValid := false }

/-- A 1920x1080 frame whose payload is one byte short of the NV12 size
1920*1080 + 1920*1080/2 = 3110400. -/
def envShort1080 : FrameEnv :=
  ⟨true, true, 1920, 1080, 3110399, true, false, [], true, true, true, 0⟩

/-- A 3840x2160 frame whose payload is one byte short of the NV12 size
3840*2160 + 3840*2160/2 = 12441600. -/
def envShort4k : FrameEnv :=
  ⟨true, true, 3840, 2160, 12441599, true, false, [], true, true, true, 0⟩

/- ---------- Helper lemmas ---------- -/

theorem Counters.le_refl (c : Counters) : Counters.le c c := by
  unfold Counters.le; omega

theorem Counters.le_trans {a b c : Counters} (h1 : Counters.le a b)
    (h2 : Counters.le b c) : Counters.le a c := by
  unfold Counters.le at *; omega

/-- Counter effect of one worker loop iteration: no counter decreases, the
enqueued counters are untouched, and the processed-frame counter grows by at
most one. -/
theorem worker_iteration_ctr_facts (env : FrameEnv) (ctr : Counters)
    (ctx : WorkerCtx) :
    Counters.le ctr (worker_iteration env ctr ctx).ctr ∧
    (worker_iteration env ctr ctx).ctr.enqueued_frames = ctr.enqueued_frames ∧
    (worker_iteration env ctr ctx).ctr.processed_frames ≤
      ctr.processed_frames + 1 := by
  unfold worker_iteration
  dsimp only
  repeat' split
  all_goals
    first
    | omega
    | simp [Counters.le, Counters.inc_processing_errors,
        Counters.inc_opencl_errors, Counters.add_proc_time,
        Counters.inc_processed, Counters.inc_push_failures]

/-- One interleaving step never decreases a counter and preserves the queue
accounting invariant. -/
theorem pipeStep_inv (s s2 : PipeState) (e : PipeEvent)
    (h : pipeStep s e = some s2)
    (hinv : s.ctr.processed_frames + s.queueLen ≤
      s.ctr.enqueued_frames + s.pending) :
    Counters.le s.ctr s2.ctr ∧
    s2.ctr.processed_frames + s2.queueLen ≤
      s2.ctr.enqueued_frames + s2.pending := by
  cases e with
  | camOut b =>
      simp only [pipeStep, Option.some.injEq] at h
      subst h
      refine ⟨?_, ?_⟩ <;>
        simp [Counters.le, Counters.inc_cam_out] <;> omega
  | qcamOut b =>
      simp only [pipeStep, Option.some.injEq] at h
      subst h
      refine ⟨?_, ?_⟩ <;>
        simp [Counters.le, Counters.inc_qcam_out] <;> omega
  | appsinkIn b =>
      simp only [pipeStep, Option.some.injEq] at h
      subst h
      refine ⟨?_, ?_⟩ <;>
        simp [Counters.le, Counters.inc_appsink_in] <;> omega
  | cbPush =>
      simp only [pipeStep, Option.some.injEq] at h
      subst h
      refine ⟨Counters.le_refl s.ctr, ?_⟩
      dsimp only
      omega
  | cbCount b =>
      simp only [pipeStep] at h
      split at h
      · simp only [Option.some.injEq] at h
        subst h
        refine ⟨?_, ?_⟩ <;>
          simp [Counters.le, Counters.inc_enqueued] <;> omega
      · exact absurd h (by simp)
  | afterSrc b =>
      simp only [pipeStep, Option.some.injEq] at h
      subst h
      refine ⟨?_, ?_⟩ <;>
        simp [Counters.le, Counters.inc_after_src] <;> omega
  | encoderIn b =>
      simp only [pipeStep, Option.some.injEq] at h
      subst h
      refine ⟨?_, ?_⟩ <;>
        simp [Counters.le, Counters.inc_encoder_in] <;> omega
  | workerIter env ctx =>
      simp only [pipeStep] at h
      split at h
      · simp only [Option.some.injEq] at h
        subst h
        obtain ⟨hle, henq, hproc⟩ := worker_iteration_ctr_facts env s.ctr ctx
        refine ⟨hle, ?_⟩
        dsimp only
        omega
      · exact absurd h (by simp)

/-- Running any enabled event sequence never decreases a counter and
preserves the queue accounting invariant. -/
theorem runEvents_inv (tr : List PipeEvent) (s s2 : PipeState)
    (h : runEvents s tr = some s2)
    (hinv : s.ctr.processed_frames + s.queueLen ≤
      s.ctr.enqueued_frames + s.pending) :
    Counters.le s.ctr s2.ctr ∧
    s2.ctr.processed_frames + s2.queueLen ≤
      s2.ctr.enqueued_frames + s2.pending := by
  induction tr generalizing s with
  | nil =>
      simp only [runEvents, Option.some.injEq] at h
      subst h
      exact ⟨Counters.le_refl s.ctr, hinv⟩
  | cons e rest ih =>
      simp only [runEvents] at h
      cases he : pipeStep s e with
      | none => rw [he] at h; exact absurd h (by simp)
      | some smid =>
          rw [he] at h
          obtain ⟨hle1, hinv1⟩ := pipeStep_inv s smid e he hinv
          obtain ⟨hle2, hinv2⟩ := ih smid h hinv1
          exact ⟨Counters.le_trans hle1 hle2, hinv2⟩

/- ---------- C1: shutdown ordering ---------- -/

/-- C1 counterexample: the claim states that all worker threads are joined
before the Transfer Queue is drained. In the shutdown sequence of main
(m2.cpp:813-830) with 2 workers, the queue drain is step 1 while the first
worker join is step 2, so the join does not precede the drain. -/
theorem shutdown_drain_precedes_join :
    (shutdown_sequence 2).indexOf ShutdownAction.drainQueue = 1 ∧
    (shutdown_sequence 2).indexOf (ShutdownAction.joinWorker 0) = 2 ∧
    (shutdown_sequence 2).indexOf (ShutdownAction.joinWorker 1) = 3 ∧
    ¬ (shutdown_sequence 2).indexOf (ShutdownAction.joinWorker 0) <
        (shutdown_sequence 2).indexOf ShutdownAction.drainQueue := by
  decide

/-- C1 amended: at shutdown the coordinator first sets the stop flag, then
pops and destroys every buffer still resident in the Transfer Queue, then
joins all worker threads, and only after all joins tears down the shared
Accelerator Session; the session is never destroyed before every worker
thread has been joined (the teardown is at position 2+n, after every join at
position 2+i with i < n), and the drain loop leaves the queue empty. -/
theorem shutdown_order (n : Nat) :
    (shutdown_sequence n).get? 0 = some ShutdownAction.setStopFlag ∧
    (shutdown_sequence n).get? 1 = some ShutdownAction.drainQueue ∧
    (∀ i, i < n → (shutdown_sequence n).get? (i + 2) =
      some (ShutdownAction.joinWorker i)) ∧
    (shutdown_sequence n).get? (n + 2) = some ShutdownAction.destroySession ∧
    (shutdown_sequence n).length = n + 3 ∧
    ∀ q : List Nat, drain_worker_queue q = [] := by
  refine ⟨rfl, rfl, ?_, ?_, ?_, ?_⟩
  · intro i hi
    rw [show (shutdown_sequence n).get? (i + 2) =
      ((List.range n).map ShutdownAction.joinWorker ++
        [ShutdownAction.destroySession]).get? i from rfl]
    rw [List.get?_eq_getElem?]
    rw [List.getElem?_append_left (by simpa using hi)]
    simp [List.getElem?_range hi]
  · rw [show (shutdown_sequence n).get? (n + 2) =
      ((List.range n).map ShutdownAction.joinWorker ++
        [ShutdownAction.destroySession]).get? n from rfl]
    rw [List.get?_eq_getElem?]
    rw [List.getElem?_append_right (by simp)]
    simp
  · simp [shutdown_sequence]
  · intro q
    induction q with
    | nil => rfl
    | cons a t ih => simpa [drain_worker_queue] using ih

/-- C1 amended witness at 2 workers: the drain is step 1, worker 0 is joined
at step 2 and the session teardown is the final step 4. -/
theorem shutdown_order_witness :
    (shutdown_sequence 2).get? 1 = some ShutdownAction.drainQueue ∧
    (shutdown_sequence 2).get? (0 + 2) = some (ShutdownAction.joinWorker 0) ∧
    (shutdown_sequence 2).get? (2 + 2) = some ShutdownAction.destroySession :=
  ⟨(shutdown_order 2).2.1, (shutdown_order 2).2.2.1 0 (by decide),
    (shutdown_order 2).2.2.2.1⟩

/- ---------- C3: session initialization is not idempotent-guarded ---------- -/

/-- C3 counterexample: the claim states that calling initialize on an
already-initialized session is a no-op that re-selects no device and re-loads
no program. After one successful call the session is initialized, yet a
second successful call performs a second device selection and a second
program load, so it is not a no-op. -/
theorem initialize_shared_twice_reselects :
    ((initialize_shared_opencl_context InitOutcome.ok initSharedCtx).2.initialized
      = true) ∧
    (initialize_shared_opencl_context InitOutcome.ok
        (initialize_shared_opencl_context InitOutcome.ok initSharedCtx).2).2
      = ⟨true, 2, 2⟩ ∧
    ¬ (initialize_shared_opencl_context InitOutcome.ok
        (initialize_shared_opencl_context InitOutcome.ok initSharedCtx).2).2
      = (initialize_shared_opencl_context InitOutcome.ok initSharedCtx).2 := by
  decide

/-- C3 amended: initialize_shared_opencl_context has no idempotence guard.
Every successful call — including a call on a session whose initialized flag
is already set — selects the device again, loads the program again, sets the
initialized flag and returns success. -/
theorem initialize_shared_always_reinitializes (s : SharedCtx) :
    (initialize_shared_opencl_context InitOutcome.ok s).1 = true ∧
    (initialize_shared_opencl_context InitOutcome.ok s).2.device_selections
      = s.device_selections + 1 ∧
    (initialize_shared_opencl_context InitOutcome.ok s).2.program_loads
      = s.program_loads + 1 ∧
    (initialize_shared_opencl_context InitOutcome.ok s).2.initialized = true := by
  simp [initialize_shared_opencl_context]

/- ---------- C8: device buffer reuse ---------- -/

/-- Helper: when the three device allocations succeed,
allocate_worker_opencl_buffers reports success in both its branches. -/
theorem allocate_ok_succeeds (ctx : WorkerCtx) (y : Nat) :
    (allocate_worker_opencl_buffers true ctx y).1 = true := by
  unfold allocate_worker_opencl_buffers
  split <;> simp

/-- C8: the worker's device buffers are reallocated if and only if the cached
buffer-size watermark differs from the incoming luma byte count or no buffer
exists yet; when the watermark matches and the buffers exist, the call is a
success that leaves the context untouched. (Stated under the hypothesis that
the device allocation itself succeeds.) -/
theorem buffers_realloc_iff (ctx : WorkerCtx) (y_size : Nat) (alloc_ok : Bool)
    (h : alloc_ok = true) :
    ((allocate_worker_opencl_buffers alloc_ok ctx y_size).2.alloc_count ≠
        ctx.alloc_count ↔
      ¬ (ctx.buffer_size = y_size ∧ ctx.has_buffer = true)) ∧
    (ctx.buffer_size = y_size ∧ ctx.has_buffer = true →
      allocate_worker_opencl_buffers alloc_ok ctx y_size = (true, ctx)) := by
  subst h
  unfold allocate_worker_opencl_buffers
  split
  · rename_i hcond
    simp [hcond]
  · rename_i hcond
    simp [hcond]

/-- C8 witness: a worker context holding buffers for a 100-byte luma plane,
asked again for 100 bytes, is returned unchanged with success. -/
theorem buffers_realloc_iff_witness :
    allocate_worker_opencl_buffers true ⟨100, true, 1⟩ 100 =
      (true, ⟨100, true, 1⟩) :=
  (buffers_realloc_iff ⟨100, true, 1⟩ 100 true rfl).2 ⟨rfl, rfl⟩

/- ---------- C10: silent skip before the video format is cached ---------- -/

/-- C10: a frame dequeued while the video info is not yet valid is unmapped,
released and skipped: the counters are unchanged (no error counter, no
processed counter), the worker context is untouched, no output buffer is
built and nothing is pushed downstream. -/
theorem early_frame_skip (env : FrameEnv) (ctr : Counters) (ctx : WorkerCtx)
    (h1 : env.mapOk = true) (h2 : env.videoInfoValid = false) :
    worker_iteration env ctr ctx = ⟨ctr, ctx, true, none, false⟩ := by
  unfold worker_iteration
  simp [h1, h2]

/-- C10 witness: the concrete 4x2 frame dequeued before the format is cached
is dropped invisibly. -/
theorem early_frame_skip_witness :
    worker_iteration envNoVideoInfo counters0 workerCtx0 =
      ⟨counters0, workerCtx0, true, none, false⟩ :=
  early_frame_skip envNoVideoInfo counters0 workerCtx0 rfl rfl

/- ---------- C2: accelerator round-trip failure handling ---------- -/

/-- C2: evaluation of the worker loop body at a frame on which the
accelerator round-trip fails (the catch branch at m2.cpp:495-498). The claim
says the worker increments an error counter and releases the input buffer;
the code instead leaves every counter unchanged and does not release the
input buffer (it stays mapped and owned — a leak), merely proceeding to the
next queue item. -/
theorem accel_failure_leaks_input :
    (worker_iteration envClThrows counters0 workerCtx0).ctr = counters0 ∧
    (worker_iteration envClThrows counters0 workerCtx0).inbufReleased
      = false ∧
    (worker_iteration envClThrows counters0 workerCtx0).outbufBuilt = none ∧
    (worker_iteration envClThrows counters0 workerCtx0).pushedDownstream
      = false := by
  decide

/- ---------- C4: geometry validation ---------- -/

/-- C4: for every geometry with a non-empty luma plane, the validation of the
worker loop accepts a payload of exactly width*height + width*height/2 bytes
and rejects one that is one byte smaller; on the rejected frame the worker
counts one processing error, leaves the processed counter unchanged, releases
the input buffer, builds no output buffer and forwards nothing downstream. -/
theorem geometry_validation (w h : Nat) (env : FrameEnv) (ctr : Counters)
    (ctx : WorkerCtx) (hwh : 0 < w * h)
    (h1 : env.mapOk = true) (h2 : env.videoInfoValid = true)
    (hw : env.width = w) (hh : env.height = h)
    (hsz : env.payloadSize = w * h + w * h / 2 - 1) :
    frame_size_ok (w * h + w * h / 2) w h = true ∧
    frame_size_ok (w * h + w * h / 2 - 1) w h = false ∧
    worker_iteration env ctr ctx =
      ⟨ctr.inc_processing_errors, ctx, true, none, false⟩ ∧
    (worker_iteration env ctr ctx).ctr.processing_errors =
      ctr.processing_errors + 1 ∧
    (worker_iteration env ctr ctx).ctr.processed_frames =
      ctr.processed_frames := by
  have hacc : frame_size_ok (w * h + w * h / 2) w h = true := by
    simp [frame_size_ok]
  have hrej : frame_size_ok (w * h + w * h / 2 - 1) w h = false := by
    simp only [frame_size_ok, Bool.not_eq_false']
    have : w * h + w * h / 2 - 1 < w * h + w * h / 2 := by omega
    simpa using this
  have hres : worker_iteration env ctr ctx =
      ⟨ctr.inc_processing_errors, ctx, true, none, false⟩ := by
    unfold worker_iteration
    rw [h1, h2, hw, hh, hsz, hrej]
    simp
  refine ⟨hacc, hrej, hres, ?_, ?_⟩ <;>
    rw [hres] <;> simp [Counters.inc_processing_errors]

/-- C4 witness at 1920x1080 and 3840x2160: the exact NV12 sizes are accepted,
the one-byte-short 1920x1080 payload is rejected with one processing error
and nothing forwarded. -/
theorem geometry_validation_witness :
    frame_size_ok (1920 * 1080 + 1920 * 1080 / 2) 1920 1080 = true ∧
    frame_size_ok (1920 * 1080 + 1920 * 1080 / 2 - 1) 1920 1080 = false ∧
    worker_iteration envShort1080 counters0 workerCtx0 =
      ⟨counters0.inc_processing_errors, workerCtx0, true, none, false⟩ ∧
    frame_size_ok (3840 * 2160 + 3840 * 2160 / 2) 3840 2160 = true ∧
    frame_size_ok (3840 * 2160 + 3840 * 2160 / 2 - 1) 3840 2160 = false :=
  have h4k := geometry_validation 3840 2160 envShort4k counters0 workerCtx0
    (by decide) rfl rfl rfl rfl (by decide)
  have h2k := geometry_validation 1920 1080 envShort1080 counters0 workerCtx0
    (by decide) rfl rfl rfl rfl (by decide)
  ⟨h2k.1, h2k.2.1, h2k.2.2.1, h4k.1, h4k.2.1⟩

/- ---------- C7: output frame construction ---------- -/

/-- C7: on every frame that passes validation and survives the accelerator
round-trip and output allocation, the worker builds a fresh output buffer of
exactly luma+chroma bytes whose first width*height bytes are the transformed
luma plane read back from the device, whose remaining width*height/2 chroma
bytes are all the neutral value 128, and whose presentation, decode and
duration timestamps are all unset. -/
theorem output_frame_construction (env : FrameEnv) (ctr : Counters)
    (ctx : WorkerCtx)
    (h1 : env.mapOk = true) (h2 : env.videoInfoValid = true)
    (h3 : frame_size_ok env.payloadSize env.width env.height = true)
    (h4 : env.allocDeviceOk = true) (h5 : env.clThrowsGError = false)
    (h6 : env.outbufAllocOk = true) (h7 : env.outMapOk = true)
    (h8 : env.fpgaResult.length = env.width * env.height) :
    (worker_iteration env ctr ctx).outbufBuilt =
      some ⟨env.fpgaResult ++
        List.replicate (env.width * env.height / 2) 128,
        ⟨none, none, none⟩⟩ ∧
    (env.fpgaResult ++
        List.replicate (env.width * env.height / 2) 128).length =
      env.width * env.height + env.width * env.height / 2 ∧
    (env.fpgaResult ++
        List.replicate (env.width * env.height / 2) 128).take
        (env.width * env.height) = env.fpgaResult ∧
    (env.fpgaResult ++
        List.replicate (env.width * env.height / 2) 128).drop
        (env.width * env.height) =
      List.replicate (env.width * env.height / 2) 128 := by
  have h9 := allocate_ok_succeeds ctx (env.width * env.height)
  refine ⟨?_, ?_, ?_, ?_⟩
  · cases hp : env.pushOk <;>
      (unfold worker_iteration
       rw [h1, h2, h3, h4, h5, h6, h7, hp]
       simp [h9])
  · simp [h8]
  · rw [← h8, List.take_left]
  · rw [← h8, List.drop_left]

/-- C7 witness: the concrete 4x2 frame with device result bytes 0..7 yields
the 12-byte output 0..7 followed by four 128 chroma bytes, with all
timestamps unset. -/
theorem output_frame_construction_witness :
    (worker_iteration envSuccess counters0 workerCtx0).outbufBuilt =
      some ⟨envSuccess.fpgaResult ++
        List.replicate (envSuccess.width * envSuccess.height / 2) 128,
        ⟨none, none, none⟩⟩ ∧
    (envSuccess.fpgaResult ++
        List.replicate (envSuccess.width * envSuccess.height / 2) 128).length =
      envSuccess.width * envSuccess.height +
        envSuccess.width * envSuccess.height / 2 ∧
    (envSuccess.fpgaResult ++
        List.replicate (envSuccess.width * envSuccess.height / 2) 128).take
        (envSuccess.width * envSuccess.height) = envSuccess.fpgaResult ∧
    (envSuccess.fpgaResult ++
        List.replicate (envSuccess.width * envSuccess.height / 2) 128).drop
        (envSuccess.width * envSuccess.height) =
      List.replicate (envSuccess.width * envSuccess.height / 2) 128 :=
  output_frame_construction envSuccess counters0 workerCtx0
    rfl rfl (by decide) rfl rfl rfl rfl (by decide)

/- ---------- C5: counter monotonicity and the enqueued/processed gap ---------- -/

/-- Helper: one interleaving step never decreases any counter (without any
assumption on the starting state). -/
theorem pipeStep_le (s s2 : PipeState) (e : PipeEvent)
    (h : pipeStep s e = some s2) : Counters.le s.ctr s2.ctr := by
  cases e with
  | camOut b =>
      simp only [pipeStep, Option.some.injEq] at h
      subst h
      simp [Counters.le, Counters.inc_cam_out]
  | qcamOut b =>
      simp only [pipeStep, Option.some.injEq] at h
      subst h
      simp [Counters.le, Counters.inc_qcam_out]
  | appsinkIn b =>
      simp only [pipeStep, Option.some.injEq] at h
      subst h
      simp [Counters.le, Counters.inc_appsink_in]
  | cbPush =>
      simp only [pipeStep, Option.some.injEq] at h
      subst h
      exact Counters.le_refl s.ctr
  | cbCount b =>
      simp only [pipeStep] at h
      split at h
      · simp only [Option.some.injEq] at h
        subst h
        simp [Counters.le, Counters.inc_enqueued]
      · exact absurd h (by simp)
  | afterSrc b =>
      simp only [pipeStep, Option.some.injEq] at h
      subst h
      simp [Counters.le, Counters.inc_after_src]
  | encoderIn b =>
      simp only [pipeStep, Option.some.injEq] at h
      subst h
      simp [Counters.le, Counters.inc_encoder_in]
  | workerIter env ctx =>
      simp only [pipeStep] at h
      split at h
      · simp only [Option.some.injEq] at h
        subst h
        exact (worker_iteration_ctr_facts env s.ctr ctx).1
      · exact absurd h (by simp)

/-- Helper: running any enabled event sequence never decreases any counter. -/
theorem runEvents_le (tr : List PipeEvent) (s s2 : PipeState)
    (h : runEvents s tr = some s2) : Counters.le s.ctr s2.ctr := by
  induction tr generalizing s with
  | nil =>
      simp only [runEvents, Option.some.injEq] at h
      subst h
      exact Counters.le_refl s.ctr
  | cons e rest ih =>
      simp only [runEvents] at h
      cases he : pipeStep s e with
      | none => rw [he] at h; exact absurd h (by simp)
      | some smid =>
          rw [he] at h
          exact Counters.le_trans (pipeStep_le s smid e he) (ih smid h)

/-- C5 counterexample: new_sample_cb pushes the buffer into the worker queue
(m2.cpp:396) before incrementing the enqueued counters (m2.cpp:397-398), so a
worker can dequeue and fully process the frame inside that window; a status
sample taken at that instant observes enqueued_frames = 0 while
processed_frames = 1, contradicting the claim that the enqueued count is
greater than or equal to the processed count at every sampling instant. -/
theorem enqueued_ge_processed_false :
    (runEvents initPipeState
        [PipeEvent.cbPush,
          PipeEvent.workerIter envSuccess workerCtx0]).map
      (fun s => (s.ctr.enqueued_frames, s.ctr.processed_frames)) =
      some (0, 1) := by
  decide

/-- C5 amended: every checkpoint counter and error counter is non-decreasing
across any run segment, and the queue accounting inequality holds at every
state reached from a state satisfying it: enqueued_frames plus the number of
in-flight enqueues (buffers pushed into the queue whose counter increment has
not executed yet) is at least processed_frames. In particular the claimed
inequality enqueued_frames at least processed_frames holds at every sampling
instant at which no enqueue is in flight. -/
theorem counters_monotone_enqueued_ge_processed (s s2 : PipeState)
    (tr : List PipeEvent)
    (hinv : s.ctr.processed_frames + s.queueLen ≤
      s.ctr.enqueued_frames + s.pending)
    (h : runEvents s tr = some s2) :
    Counters.le s.ctr s2.ctr ∧
    s2.ctr.processed_frames + s2.queueLen ≤
      s2.ctr.enqueued_frames + s2.pending ∧
    (s2.pending = 0 → s2.ctr.processed_frames ≤ s2.ctr.enqueued_frames) := by
  obtain ⟨hle, hinv2⟩ := runEvents_inv tr s s2 h hinv
  exact ⟨hle, hinv2, fun hp => by omega⟩

/-- C5 amended witness: a run touching every checkpoint once — probe, push,
count, worker iteration, downstream probes — ends with every counter at least
its initial value and processed_frames at most enqueued_frames. -/
theorem counters_monotone_witness :
    Counters.le counters0
      ⟨1, 6, 1, 6, 1, 6, 1, 6, 1, 12, 1, 12, 1, 12, 0, 0, 0, 0⟩ ∧
    (1 : Nat) ≤ 1 :=
  have hrun := counters_monotone_enqueued_ge_processed initPipeState
    ⟨⟨1, 6, 1, 6, 1, 6, 1, 6, 1, 12, 1, 12, 1, 12, 0, 0, 0, 0⟩, 0, 0⟩
    [PipeEvent.camOut 6, PipeEvent.qcamOut 6, PipeEvent.appsinkIn 6,
      PipeEvent.cbPush, PipeEvent.cbCount 6,
      PipeEvent.workerIter envSuccess workerCtx0,
      PipeEvent.afterSrc 12, PipeEvent.encoderIn 12]
    (by decide) (by decide)
  ⟨hrun.1, hrun.2.2 rfl⟩

/- ---------- C6: health classification priority ---------- -/

/-- C6 counterexample: status_tick never loads the push_failures counter. In
a run reaching a state with one observed push failure and no processing or
device errors, the sample classifies the pipeline as ACTIVE, not as
PROCESSING_ERROR as the claim requires when push failures are observed. -/
theorem push_failure_not_classified :
    (runEvents initPipeState
        [PipeEvent.cbPush, PipeEvent.cbCount 6,
          PipeEvent.workerIter envPushFail workerCtx0]).map
      (fun s => (s.ctr.push_failures, s.ctr.processing_errors,
        s.ctr.opencl_errors, status_tick_status s.ctr 0 0)) =
      some (1, 0, 0, ProcStatus.active) := by
  decide

/-- C6 amended: at each sample the classifier selects the highest-priority
matching state from FPGA_ERROR over PROCESSING_ERROR over QUEUE_BACKLOG over
ACTIVE over IDLE: FPGA_ERROR exactly when the cumulative device-error counter
is nonzero, PROCESSING_ERROR exactly when it is zero and the cumulative
processing-error counter (validation/allocation/map failures — push failures
are not consulted) is nonzero, QUEUE_BACKLOG exactly when both are zero and
the queue depth exceeds the fixed threshold 5, ACTIVE exactly when moreover
the processed-frame delta is positive, and IDLE otherwise. -/
theorem status_priority (oe pe : Nat) (qlen : Int) (dp : Nat) :
    (status_classify oe pe qlen dp = ProcStatus.fpgaError ↔ 0 < oe) ∧
    (status_classify oe pe qlen dp = ProcStatus.processingError ↔
      oe = 0 ∧ 0 < pe) ∧
    (status_classify oe pe qlen dp = ProcStatus.queueBacklog ↔
      oe = 0 ∧ pe = 0 ∧ 5 < qlen) ∧
    (status_classify oe pe qlen dp = ProcStatus.active ↔
      oe = 0 ∧ pe = 0 ∧ qlen ≤ 5 ∧ 0 < dp) ∧
    (status_classify oe pe qlen dp = ProcStatus.idle ↔
      oe = 0 ∧ pe = 0 ∧ qlen ≤ 5 ∧ dp = 0) := by
  unfold status_classify
  split_ifs <;> simp_all <;> omega

/- ---------- C9: cumulative error counters latch the health state ---------- -/

/-- C9: the classifier reads cumulative error totals, and counters never
decrease, so errors latch. Once the FPGA-error counter is nonzero, every
subsequent sample reports FPGA_ERROR; once the processing-error counter is
nonzero, every subsequent sample reports FPGA_ERROR or PROCESSING_ERROR; in
either case no later sample ever reports QUEUE_BACKLOG, ACTIVE or IDLE again,
whatever the queue depth and the processed delta at that sample. -/
theorem error_status_latches (s s2 : PipeState) (tr : List PipeEvent)
    (h : runEvents s tr = some s2) (qlen : Int) (prev : Nat) :
    (0 < s.ctr.opencl_errors →
      status_tick_status s2.ctr qlen prev = ProcStatus.fpgaError) ∧
    (0 < s.ctr.processing_errors →
      (status_tick_status s2.ctr qlen prev = ProcStatus.fpgaError ∨
        status_tick_status s2.ctr qlen prev = ProcStatus.processingError) ∧
      status_tick_status s2.ctr qlen prev ≠ ProcStatus.queueBacklog ∧
      status_tick_status s2.ctr qlen prev ≠ ProcStatus.active ∧
      status_tick_status s2.ctr qlen prev ≠ ProcStatus.idle) := by
  have hle := runEvents_le tr s s2 h
  have hoe : s.ctr.opencl_errors ≤ s2.ctr.opencl_errors := by
    unfold Counters.le at hle; omega
  have hpe : s.ctr.processing_errors ≤ s2.ctr.processing_errors := by
    unfold Counters.le at hle; omega
  constructor
  · intro hpos
    have h2 : 0 < s2.ctr.opencl_errors := by omega
    unfold status_tick_status status_classify
    simp [h2]
  · intro hpos
    unfold status_tick_status status_classify
    by_cases h2 : 0 < s2.ctr.opencl_errors
    · simp [h2]
    · have h3 : 0 < s2.ctr.processing_errors := by omega
      simp [h2, h3]

/-- C9 witness: from a state with one FPGA error on record, a further probe
event leads to a sample that still reports FPGA_ERROR. -/
theorem error_status_latches_witness :
    status_tick_status ⟨1, 5, 0, 0, 0, 0, 0, 0, 0, 0, 0, 0, 0, 0, 0, 0, 0, 1⟩
      0 0 = ProcStatus.fpgaError :=
  (error_status_latches
    ⟨⟨0, 0, 0, 0, 0, 0, 0, 0, 0, 0, 0, 0, 0, 0, 0, 0, 0, 1⟩, 0, 1⟩
    ⟨⟨1, 5, 0, 0, 0, 0, 0, 0, 0, 0, 0, 0, 0, 0, 0, 0, 0, 1⟩, 0, 1⟩
    [PipeEvent.camOut 5] (by decide) 0 0).1 (by decide)
